import Mathlib

/-!
# Verification of the EMV QR payload generator (`BankQrCodeStringGenerator.js`)

Shallow embedding of the `QRGeneration` class: each private method becomes a
Lean function over an explicit configuration record, JavaScript exceptions
become `Except` errors, and the `crypto.randomInt(10000)` call becomes an
explicit `rand` parameter (the caller-supplied random value, guaranteed by
`randomInt`'s contract to lie in `[0, 10000)`).

Strings are modelled as sequences of characters (`String` / `List Char`);
`amount` and `desc` are modelled as `Option String` (`none` = the JavaScript
argument is absent/`undefined`), matching the documented string interface.
JavaScript truthiness on an optional string is then: `none` and `some ""` are
falsy, every other value truthy.
-/

namespace QRGen

/-- JavaScript `String.prototype.padStart(n, c)` for a single pad character:
left-pads `s` with `c` up to length `n`; returns `s` unchanged when
`s.length ≥ n`. -/
def padStart (s : String) (n : Nat) (c : Char) : String :=
  String.mk (List.replicate (n - s.length) c) ++ s

/-- The JavaScript exceptions the generator can raise:
`lengthOutOfRange len` models the `Error` thrown by `#formatLength`
(`Data length ${length} out of range (1-99)`), and `typeError` models the
`TypeError` raised when `#formatLength` coerces `undefined` via `.toString()`. -/
inductive JSError where
  | lengthOutOfRange (len : Nat)
  | typeError
deriving DecidableEq, Repr

/-! ## The class-level constants (`QRGeneration.#CONSTANTS`) -/

def PAYLOAD_FORMAT : String := "000201"
def PIM_STATIC : String := "010211"
def PIM_DYNAMIC : String := "010212"
def CURRENCY : String := "5303704"
def COUNTRY : String := "5802VN"
def CRC_ID : String := "6304"
def ACQUIRER_ID : String := "0006"
def MERCHANT_ID : String := "01"
def BENEFICIARY_ORG_ID : String := "01"
def DVCNTT_ID : String := "38"
def AMOUNT_ID : String := "54"
def ADDITIONAL_DATA_ID : String := "62"
def BILL_NUMBER_ID : String := "01"
def PURPOSE_ID : String := "08"
def GUID : String := "0010A000000727"
def SERVICE_ACCOUNT : String := "0208QRIBFTTA"
def SERVICE_CARD : String := "0208QRIBFTTC"
def BILL_PREF : String := "NAPAS"

/-! ## Number rendering (JavaScript `Number.prototype.toString`) -/

/-- Digit character for a value `< 16`, uppercase letters: this fuses the
`.toUpperCase()` the source applies to `toString(16)` output (decimal digits
are unaffected by upper-casing). -/
def digitCharU (d : Nat) : Char :=
  if d < 10 then Char.ofNat (48 + d) else Char.ofNat (55 + d)

/-- Decimal digits, most significant first, with a fuel argument to make the
recursion structural (any `fuel > n` gives the exact digits of `n`). -/
def decDigitsF : Nat → Nat → List Char
  | 0, _ => []
  | fuel + 1, n =>
    if n < 10 then [digitCharU n]
    else decDigitsF fuel (n / 10) ++ [digitCharU (n % 10)]

/-- Decimal digits of `n`, most significant first, as produced by the
JavaScript `n.toString()`. -/
def decDigits (n : Nat) : List Char := decDigitsF (n + 1) n

/-- Hexadecimal digits, most significant first, uppercase, with a fuel
argument to make the recursion structural. -/
def hexDigitsF : Nat → Nat → List Char
  | 0, _ => []
  | fuel + 1, n =>
    if n < 16 then [digitCharU n]
    else hexDigitsF fuel (n / 16) ++ [digitCharU (n % 16)]

/-- Hexadecimal digits of `n`, most significant first, uppercase, as produced
by the JavaScript `n.toString(16).toUpperCase()`. -/
def hexDigits (n : Nat) : List Char := hexDigitsF (n + 1) n

/-- JavaScript `n.toString()` for a natural number. -/
def jsToString (n : Nat) : String := String.mk (decDigits n)

/-! ## The private methods of `QRGeneration`, as functions -/

/-- `#generateBillNumber`: `BILL_PREFIX + randomInt(10000).toString().padStart(4, '0')`,
with the random draw passed in as `rand`. -/
def generateBillNumber (rand : Nat) : String :=
  BILL_PREF ++ padStart (jsToString rand) 4 '0'

/-- `#formatLength`: the length of the data as a 2-digit zero-padded decimal
string; throws when the length is `< 1` or `> 99`. -/
def formatLength (data : String) : Except JSError String :=
  let length := data.length
  if length < 1 ∨ length > 99 then
    .error (.lengthOutOfRange length)
  else
    .ok (padStart (jsToString length) 2 '0')

/-- `#buildTLV`: `id + this.#formatLength(value) + value`. -/
def buildTLV (id value : String) : Except JSError String := do
  let len ← formatLength value
  pure (id ++ len ++ value)

/-- One iteration of the inner CRC loop:
`crc = (crc & 0x8000) ? ((crc << 1) ^ 0x1021) : (crc << 1); crc &= 0xFFFF`. -/
def crcRound (crc : Nat) : Nat :=
  (if crc &&& 0x8000 ≠ 0 then (crc <<< 1) ^^^ 0x1021 else crc <<< 1) &&& 0xFFFF

/-- Processing of one input character: `crc ^= (char.charCodeAt(0) << 8)`
followed by the 8 inner iterations. -/
def crcChar (crc : Nat) (ch : Char) : Nat :=
  crcRound^[8] (crc ^^^ (ch.toNat <<< 8))

/-- `#calculateCRC16`: CRC-16/CCITT-FALSE (init `0xFFFF`, poly `0x1021`,
no final XOR) over the characters of `data`, rendered as
`crc.toString(16).toUpperCase().padStart(4, '0')`. -/
def calculateCRC16 (data : String) : String :=
  padStart (String.mk (hexDigits (data.data.foldl crcChar 0xFFFF))) 4 '0'

/-- The configuration record built by the `QRGeneration` constructor. -/
structure QRGeneration where
  bankBin : String
  accNo : String
  initType : String
  isAccount : Bool
  amount : Option String
  desc : Option String
  billNumber : String
deriving DecidableEq, Repr

/-- JavaScript `String.prototype.toUpperCase()` (character-wise upper-casing,
which coincides with the JS behaviour on the ASCII initiation-type strings
this program compares against). -/
def jsToUpper (s : String) : String := String.mk (s.data.map Char.toUpper)

/-- The constructor: `this.initType = initType?.toUpperCase() || "STATIC"`
(absent or empty input falls back to `"STATIC"`; `s.toUpperCase()` is falsy
exactly when `s = ""`), and `this.billNumber = this.#generateBillNumber()`
with the random draw `rand`. -/
def mkQRGeneration (bankBin accNo : String) (initType : Option String)
    (isAccount : Bool) (amount desc : Option String) (rand : Nat) : QRGeneration :=
  { bankBin := bankBin
    accNo := accNo
    initType :=
      match initType with
      | none => "STATIC"
      | some s => if jsToUpper s = "" then "STATIC" else jsToUpper s
    isAccount := isAccount
    amount := amount
    desc := desc
    billNumber := generateBillNumber rand }

/-- `#getPointOfInitiation`: the STATIC constant on exact equality with
`"STATIC"`, the DYNAMIC constant otherwise. -/
def getPointOfInitiation (c : QRGeneration) : String :=
  if c.initType = "STATIC" then PIM_STATIC else PIM_DYNAMIC

/-- `#getMerchantInfo`: `ACQUIRER_ID + bankBin` followed by a TLV of the
account number under `MERCHANT_ID`. -/
def getMerchantInfo (c : QRGeneration) : Except JSError String := do
  let merchantData ← buildTLV MERCHANT_ID c.accNo
  pure (ACQUIRER_ID ++ c.bankBin ++ merchantData)

/-- `#getServiceType`: account-transfer vs card-transfer service code. -/
def getServiceType (c : QRGeneration) : String :=
  if c.isAccount then SERVICE_ACCOUNT else SERVICE_CARD

/-- `#getMerchantAccountInfo`: GUID + beneficiary id + length of the merchant
info + merchant info + service type, all wrapped in a TLV under `DVCNTT_ID`. -/
def getMerchantAccountInfo (c : QRGeneration) : Except JSError String := do
  let merchantInfo ← getMerchantInfo c
  let len ← formatLength merchantInfo
  buildTLV DVCNTT_ID (GUID ++ BENEFICIARY_ORG_ID ++ len ++ merchantInfo ++ getServiceType c)

/-- `#getTransactionAmount`: `initType === "DYNAMIC" && this.amount` — the
TLV is built only when `initType` equals `"DYNAMIC"` exactly and `amount` is
truthy (present and non-empty); otherwise the empty string. -/
def getTransactionAmount (c : QRGeneration) : Except JSError String :=
  match c.amount with
  | some a => if c.initType = "DYNAMIC" ∧ a ≠ "" then buildTLV AMOUNT_ID a else .ok ""
  | none => .ok ""

/-- `#getAdditionalData`: empty unless `initType` equals `"DYNAMIC"` exactly;
otherwise a TLV under `ADDITIONAL_DATA_ID` wrapping the bill-number TLV and
the purpose/description TLV. An absent `desc` raises `typeError` (the
JavaScript `undefined.toString()` inside `#formatLength`). -/
def getAdditionalData (c : QRGeneration) : Except JSError String :=
  if c.initType ≠ "DYNAMIC" then .ok ""
  else do
    let billData ← buildTLV BILL_NUMBER_ID c.billNumber
    match c.desc with
    | none => .error .typeError
    | some d => do
      let purposeData ← buildTLV PURPOSE_ID d
      buildTLV ADDITIONAL_DATA_ID (billData ++ purposeData)

/-- `generateQR()`: concatenates the fixed-order fields, appends the checksum
tag/length constant `6304`, computes the CRC16 over that string and appends
it. -/
def generateQR (c : QRGeneration) : Except JSError String := do
  let mai ← getMerchantAccountInfo c
  let amt ← getTransactionAmount c
  let ad ← getAdditionalData c
  let qrData := PAYLOAD_FORMAT ++ getPointOfInitiation c ++ mai ++ CURRENCY ++
    amt ++ COUNTRY ++ ad ++ CRC_ID
  pure (qrData ++ calculateCRC16 qrData)

/-- The record returned by `getComponents()`. -/
structure Components where
  payloadFormat : String
  pointOfInitiation : String
  merchantAccount : String
  currency : String
  amount : String
  country : String
  additionalData : String
  billNumber : String
deriving DecidableEq, Repr

/-- `getComponents()`: recomputes every segment through the same private
methods as `generateQR()` and returns them as a labeled record. -/
def getComponents (c : QRGeneration) : Except JSError Components := do
  let mai ← getMerchantAccountInfo c
  let amt ← getTransactionAmount c
  let ad ← getAdditionalData c
  pure { payloadFormat := PAYLOAD_FORMAT
         pointOfInitiation := getPointOfInitiation c
         merchantAccount := mai
         currency := CURRENCY
         amount := amt
         country := COUNTRY
         additionalData := ad
         billNumber := c.billNumber }

end QRGen

namespace QRGen

/-! ## Helper lemmas -/

theorem mk_data (s : String) : String.mk s.data = s := rfl

theorem padStart_length (s : String) (n : Nat) (c : Char) :
    (padStart s n c).length = max n s.length := by
  simp [padStart]
  omega

theorem crcRound_lt (x : Nat) : crcRound x < 65536 :=
  Nat.lt_succ_of_le (Nat.and_le_right)

theorem crcChar_lt (crc : Nat) (ch : Char) : crcChar crc ch < 65536 := by
  unfold crcChar
  rw [show (8 : Nat) = 7 + 1 from rfl, Function.iterate_succ_apply']
  exact crcRound_lt _

theorem crcFold_lt (l : List Char) (init : Nat) (h : init < 65536) :
    l.foldl crcChar init < 65536 := by
  induction l generalizing init with
  | nil => exact h
  | cons ch rest ih => exact ih _ (crcChar_lt init ch)

theorem decDigitsF_succ (fuel n : Nat) :
    decDigitsF (fuel + 1) n =
      if n < 10 then [digitCharU n]
      else decDigitsF fuel (n / 10) ++ [digitCharU (n % 10)] := rfl

theorem hexDigitsF_succ (fuel n : Nat) :
    hexDigitsF (fuel + 1) n =
      if n < 16 then [digitCharU n]
      else hexDigitsF fuel (n / 16) ++ [digitCharU (n % 16)] := rfl

theorem decDigitsF_small {fuel n : Nat} (h : n < 10) (hf : 0 < fuel) :
    decDigitsF fuel n = [digitCharU n] := by
  cases fuel with
  | zero => omega
  | succ fuel => rw [decDigitsF_succ, if_pos h]

theorem hexDigitsF_length_le : ∀ (fuel k n : Nat), 1 ≤ k → n < 16 ^ k → n < fuel →
    (hexDigitsF fuel n).length ≤ k := by
  intro fuel
  induction fuel with
  | zero => omega
  | succ fuel ih =>
    intro k n hk hn hf
    rw [hexDigitsF_succ]
    by_cases h16 : n < 16
    · rw [if_pos h16]
      simpa using hk
    · rw [if_neg h16]
      rcases Nat.eq_zero_or_pos (k - 1) with hk1 | hk1
      · rw [show k = 1 by omega, pow_one] at hn
        omega
      · have hdiv : n / 16 < 16 ^ (k - 1) := by
          rw [Nat.div_lt_iff_lt_mul (by omega : 0 < 16)]


          calc n < 16 ^ k := hn
          _ = 16 ^ (k - 1) * 16 := by
              rw [← pow_succ]
              congr 1
              omega
        have hfuel : n / 16 < fuel := by
          have := Nat.div_lt_self (n := n) (by omega) (by omega : 1 < 16)
          omega
        have := ih (k - 1) (n / 16) (by omega) hdiv hfuel
        simp only [List.length_append, List.length_cons, List.length_nil]
        omega

theorem hexDigits_length_le (k n : Nat) (hk : 1 ≤ k) (hn : n < 16 ^ k) :
    (hexDigits n).length ≤ k :=
  hexDigitsF_length_le (n + 1) k n hk hn (by omega)

theorem decDigitsF_length_le : ∀ (fuel k n : Nat), 1 ≤ k → n < 10 ^ k → n < fuel →
    (decDigitsF fuel n).length ≤ k := by
  intro fuel
  induction fuel with
  | zero => omega
  | succ fuel ih =>
    intro k n hk hn hf
    rw [decDigitsF_succ]
    by_cases h10 : n < 10
    · rw [if_pos h10]
      simpa using hk
    · rw [if_neg h10]
      rcases Nat.eq_zero_or_pos (k - 1) with hk1 | hk1
      · rw [show k = 1 by omega, pow_one] at hn
        omega
      · have hdiv : n / 10 < 10 ^ (k - 1) := by
          rw [Nat.div_lt_iff_lt_mul (by omega : 0 < 10)]
          calc n < 10 ^ k := hn
          _ = 10 ^ (k - 1) * 10 := by
              rw [← pow_succ]
              congr 1
              omega
        have hfuel : n / 10 < fuel := by
          have := Nat.div_lt_self (n := n) (by omega) (by omega : 1 < 10)
          omega
        have := ih (k - 1) (n / 10) (by omega) hdiv hfuel
        simp only [List.length_append, List.length_cons, List.length_nil]
        omega

theorem decDigits_length_le (k n : Nat) (hk : 1 ≤ k) (hn : n < 10 ^ k) :
    (decDigits n).length ≤ k :=
  decDigitsF_length_le (n + 1) k n hk hn (by omega)

theorem digitCharU_isDigit {d : Nat} (hd : d < 10) : (digitCharU d).isDigit := by
  interval_cases d <;> decide

theorem decDigitsF_isDigit : ∀ (fuel n : Nat), n < fuel → ∀ ch ∈ decDigitsF fuel n, ch.isDigit := by
  intro fuel
  induction fuel with
  | zero => omega
  | succ fuel ih =>
    intro n hf ch hch
    rw [decDigitsF_succ] at hch
    by_cases h10 : n < 10
    · rw [if_pos h10, List.mem_singleton] at hch
      subst hch
      exact digitCharU_isDigit h10
    · rw [if_neg h10, List.mem_append, List.mem_singleton] at hch
      rcases hch with hch | rfl
      · have hfuel : n / 10 < fuel := by
          have := Nat.div_lt_self (n := n) (by omega) (by omega : 1 < 10)
          omega
        exact ih (n / 10) hfuel ch hch
      · exact digitCharU_isDigit (Nat.mod_lt _ (by omega))

theorem decDigits_isDigit (n : Nat) : ∀ ch ∈ decDigits n, ch.isDigit :=
  decDigitsF_isDigit (n + 1) n (by omega)

theorem calculateCRC16_length (s : String) : (calculateCRC16 s).length = 4 := by
  unfold calculateCRC16
  rw [padStart_length, String.length_mk]
  have h1 : s.data.foldl crcChar 0xFFFF < 65536 := crcFold_lt _ _ (by omega)
  have h2 := hexDigits_length_le 4 (s.data.foldl crcChar 0xFFFF) (by omega) (by norm_num; omega)
  omega

end QRGen

namespace QRGen

/-- Inversion of `generateQR`: a successful payload is exactly the fixed-order
concatenation of the segments with the CRC appended. -/
theorem generateQR_ok_iff {c : QRGeneration} {P : String} :
    generateQR c = .ok P ↔ ∃ mai amt ad,
      getMerchantAccountInfo c = .ok mai ∧ getTransactionAmount c = .ok amt ∧
      getAdditionalData c = .ok ad ∧
      P = PAYLOAD_FORMAT ++ getPointOfInitiation c ++ mai ++ CURRENCY ++ amt ++
        COUNTRY ++ ad ++ CRC_ID ++
        calculateCRC16 (PAYLOAD_FORMAT ++ getPointOfInitiation c ++ mai ++
          CURRENCY ++ amt ++ COUNTRY ++ ad ++ CRC_ID) := by
  constructor
  · intro h
    unfold generateQR at h
    cases hm : getMerchantAccountInfo c with
    | error e => rw [hm] at h; simp [Bind.bind, Except.bind, Functor.map, Except.map] at h
    | ok mai =>
      rw [hm] at h
      cases ha : getTransactionAmount c with
      | error e => rw [ha] at h; simp [Bind.bind, Except.bind, Functor.map, Except.map] at h
      | ok amt =>
        rw [ha] at h
        cases hd : getAdditionalData c with
        | error e => rw [hd] at h; simp [Bind.bind, Except.bind, Functor.map, Except.map] at h
        | ok ad =>
          rw [hd] at h
          simp only [Except.bind, bind, pure, Except.pure, Except.ok.injEq] at h
          exact ⟨mai, amt, ad, rfl, rfl, rfl, h.symm⟩
  · rintro ⟨mai, amt, ad, hm, ha, hd, rfl⟩
    unfold generateQR
    rw [hm, ha, hd]
    rfl

/-- Inversion of `getComponents`. -/
theorem getComponents_ok_iff {c : QRGeneration} {comps : Components} :
    getComponents c = .ok comps ↔ ∃ mai amt ad,
      getMerchantAccountInfo c = .ok mai ∧ getTransactionAmount c = .ok amt ∧
      getAdditionalData c = .ok ad ∧
      comps = { payloadFormat := PAYLOAD_FORMAT
                pointOfInitiation := getPointOfInitiation c
                merchantAccount := mai
                currency := CURRENCY
                amount := amt
                country := COUNTRY
                additionalData := ad
                billNumber := c.billNumber } := by
  constructor
  · intro h
    unfold getComponents at h
    cases hm : getMerchantAccountInfo c with
    | error e => rw [hm] at h; simp [Bind.bind, Except.bind, Functor.map, Except.map] at h
    | ok mai =>
      rw [hm] at h
      cases ha : getTransactionAmount c with
      | error e => rw [ha] at h; simp [Bind.bind, Except.bind, Functor.map, Except.map] at h
      | ok amt =>
        rw [ha] at h
        cases hd : getAdditionalData c with
        | error e => rw [hd] at h; simp [Bind.bind, Except.bind, Functor.map, Except.map] at h
        | ok ad =>
          rw [hd] at h
          simp only [Except.bind, bind, pure, Except.pure, Except.ok.injEq] at h
          exact ⟨mai, amt, ad, rfl, rfl, rfl, h.symm⟩
  · rintro ⟨mai, amt, ad, hm, ha, hd, rfl⟩
    unfold getComponents
    rw [hm, ha, hd]
    rfl

/-! ## Spec-side formulation of the CRC16 algorithm (from the claim's words,
for comparison with the implementation-side `calculateCRC16`) -/

/-- Spec side: `k` repetitions of "if bit 15 is set, shift left 1 and XOR
`0x1021`, else shift left 1; mask to 16 bits after each shift". -/
def crcRoundsSpec : Nat → Nat → Nat
  | 0, crc => crc
  | k + 1, crc =>
      crcRoundsSpec k
        (if crc &&& 0x8000 ≠ 0 then ((crc <<< 1) ^^^ 0x1021) &&& 0xFFFF
         else (crc <<< 1) &&& 0xFFFF)

/-- Spec side: for each character in order, XOR the CRC with
`(char code << 8)`, then run the 8 inner rounds. -/
def crc16Spec : Nat → List Char → Nat
  | crc, [] => crc
  | crc, ch :: rest => crc16Spec (crcRoundsSpec 8 (crc ^^^ (ch.toNat <<< 8))) rest

/-- Spec side: the final 16-bit state rendered as 4 uppercase hex characters,
zero-padded, starting from `0xFFFF`. -/
def crc16SpecRender (s : String) : String :=
  padStart (String.mk (hexDigits (crc16Spec 0xFFFF s.data))) 4 '0'

theorem crcRoundsSpec_eq_iterate (k : Nat) (crc : Nat) :
    crcRoundsSpec k crc = crcRound^[k] crc := by
  induction k generalizing crc with
  | zero => rfl
  | succ k ih =>
    rw [Function.iterate_succ_apply]
    show crcRoundsSpec k _ = _
    rw [ih]
    congr 1
    unfold crcRound
    split <;> rfl

theorem crc16Spec_eq_foldl (l : List Char) (crc : Nat) :
    crc16Spec crc l = l.foldl crcChar crc := by
  induction l generalizing crc with
  | nil => rfl
  | cons ch rest ih =>
    show crc16Spec (crcRoundsSpec 8 _) rest = _
    rw [ih, crcRoundsSpec_eq_iterate]
    rfl

end QRGen

namespace QRGen

theorem buildTLV_eq (tag v : String) :
    buildTLV tag v =
      if v.length < 1 ∨ v.length > 99 then .error (.lengthOutOfRange v.length)
      else .ok (tag ++ padStart (jsToString v.length) 2 '0' ++ v) := by
  by_cases hc : v.length < 1 ∨ v.length > 99
  · rw [if_pos hc]
    unfold buildTLV formatLength
    rw [if_pos hc]
    rfl
  · rw [if_neg hc]
    unfold buildTLV formatLength
    rw [if_neg hc]
    rfl

theorem decDigits_lt10 {L : Nat} (h : L < 10) : decDigits L = [digitCharU L] :=
  decDigitsF_small h (by omega)

theorem decDigits_two {L : Nat} (h1 : 10 ≤ L) (h2 : L ≤ 99) :
    decDigits L = [digitCharU (L / 10), digitCharU (L % 10)] := by
  show decDigitsF (L + 1) L = _
  rw [decDigitsF_succ, if_neg (by omega), decDigitsF_small (by omega) (by omega)]
  rfl

theorem formatLength_ok {v : String} (h1 : 1 ≤ v.length) (h2 : v.length ≤ 99) :
    formatLength v =
      .ok (if v.length < 10 then "0" ++ jsToString v.length else jsToString v.length) := by
  unfold formatLength
  rw [if_neg (by omega)]
  congr 1
  by_cases h : v.length < 10
  · rw [if_pos h]
    unfold padStart jsToString
    rw [decDigits_lt10 h]
    apply String.ext
    simp [String.data_append]
  · rw [if_neg h]
    unfold padStart jsToString
    rw [decDigits_two (by omega) h2]
    apply String.ext
    simp [String.data_append]

/-- **C1**: for every configuration whose segment builders succeed,
`generateQR()` returns exactly the concatenation, in this fixed order, of
`"000201"`, the point-of-initiation constant selected by `initType`
(`"010211"` for STATIC, `"010212"` otherwise), the merchant account info
segment, `"5303704"`, the transaction amount TLV (possibly empty),
`"5802VN"`, the additional data TLV (possibly empty), the literal checksum
tag-plus-length constant `"6304"`, and the 4-character CRC16 checksum of
everything preceding it. -/
theorem C1_generateQR_field_order (c : QRGeneration) (mai amt ad : String)
    (hm : getMerchantAccountInfo c = .ok mai)
    (ha : getTransactionAmount c = .ok amt)
    (hd : getAdditionalData c = .ok ad) :
    generateQR c = .ok ("000201" ++
      (if c.initType = "STATIC" then "010211" else "010212") ++ mai ++
      "5303704" ++ amt ++ "5802VN" ++ ad ++ "6304" ++
      calculateCRC16 ("000201" ++
        (if c.initType = "STATIC" then "010211" else "010212") ++ mai ++
        "5303704" ++ amt ++ "5802VN" ++ ad ++ "6304")) := by
  rw [generateQR_ok_iff]
  refine ⟨mai, amt, ad, hm, ha, hd, ?_⟩
  simp only [PAYLOAD_FORMAT, CURRENCY, COUNTRY, CRC_ID, getPointOfInitiation,
    PIM_STATIC, PIM_DYNAMIC]

/-- Witness for C1: the STATIC example configuration, evaluated. -/
theorem C1_generateQR_field_order_witness :
    generateQR (mkQRGeneration "970407" "2543663452" none true none none 0) =
      .ok ("000201" ++
        (if (mkQRGeneration "970407" "2543663452" none true none none 0).initType = "STATIC"
         then "010211" else "010212") ++
        "38540010A00000072701240006970407011025436634520208QRIBFTTA" ++
        "5303704" ++ "" ++ "5802VN" ++ "" ++ "6304" ++
        calculateCRC16 ("000201" ++
          (if (mkQRGeneration "970407" "2543663452" none true none none 0).initType = "STATIC"
           then "010211" else "010212") ++
          "38540010A00000072701240006970407011025436634520208QRIBFTTA" ++
          "5303704" ++ "" ++ "5802VN" ++ "" ++ "6304")) :=
  C1_generateQR_field_order _ _ _ _ rfl rfl rfl

/-- **C2**: for every configuration for which `generateQR()` succeeds with
payload `P`, recomputing the CRC16 over `P` with its last 4 characters
removed yields exactly those last 4 characters. -/
theorem C2_crc_roundtrip (c : QRGeneration) (P : String) (h : generateQR c = .ok P) :
    calculateCRC16 (String.mk (P.data.take (P.data.length - 4))) =
      String.mk (P.data.drop (P.data.length - 4)) := by
  rcases generateQR_ok_iff.mp h with ⟨mai, amt, ad, hm, ha, hd, rfl⟩
  set q := PAYLOAD_FORMAT ++ getPointOfInitiation c ++ mai ++ CURRENCY ++ amt ++
    COUNTRY ++ ad ++ CRC_ID with hq
  have hlen4 : (calculateCRC16 q).data.length = 4 := calculateCRC16_length q
  rw [String.data_append]
  have hl : (q.data ++ (calculateCRC16 q).data).length - 4 = q.data.length := by
    rw [List.length_append]
    omega
  rw [hl, List.take_left, List.drop_left, mk_data]

/-- Witness for C2: the round trip on the concrete STATIC payload (the 88
hashed characters concatenated with their 4-character checksum). -/
theorem C2_crc_roundtrip_witness :
    calculateCRC16 (String.mk
      ((("00020101021138540010A00000072701240006970407011025436634520208QRIBFTTA53037045802VN6304" : String) ++
          calculateCRC16 "00020101021138540010A00000072701240006970407011025436634520208QRIBFTTA53037045802VN6304").data.take
        ((("00020101021138540010A00000072701240006970407011025436634520208QRIBFTTA53037045802VN6304" : String) ++
            calculateCRC16 "00020101021138540010A00000072701240006970407011025436634520208QRIBFTTA53037045802VN6304").data.length - 4))) =
      String.mk
        ((("00020101021138540010A00000072701240006970407011025436634520208QRIBFTTA53037045802VN6304" : String) ++
            calculateCRC16 "00020101021138540010A00000072701240006970407011025436634520208QRIBFTTA53037045802VN6304").data.drop
          ((("00020101021138540010A00000072701240006970407011025436634520208QRIBFTTA53037045802VN6304" : String) ++
              calculateCRC16 "00020101021138540010A00000072701240006970407011025436634520208QRIBFTTA53037045802VN6304").data.length - 4)) :=
  C2_crc_roundtrip (mkQRGeneration "970407" "2543663452" none true none none 0)
    (("00020101021138540010A00000072701240006970407011025436634520208QRIBFTTA53037045802VN6304" : String) ++
      calculateCRC16 "00020101021138540010A00000072701240006970407011025436634520208QRIBFTTA53037045802VN6304") rfl

/-- **C3**: the CRC16 calculator is total: on every character sequence it
agrees with the claimed algorithm (start from `0xFFFF`; per character XOR the
CRC with `code << 8` then run 8 rounds of shift-left-1 / conditional XOR
`0x1021`, masked to 16 bits; no final XOR; render as 4 uppercase zero-padded
hex characters), its output always has exactly 4 characters, and on the empty
string it renders the untouched initial state `0xFFFF` as `"FFFF"`. -/
theorem C3_crc16_algorithm :
    (∀ s : String, calculateCRC16 s = crc16SpecRender s) ∧
    (∀ s : String, (calculateCRC16 s).length = 4) ∧
    calculateCRC16 "" = "FFFF" := by
  refine ⟨fun s => ?_, calculateCRC16_length, rfl⟩
  unfold calculateCRC16 crc16SpecRender
  rw [crc16Spec_eq_foldl]

/-- **C4**: for every tag and every value whose character length lies in
`[1, 99]`, the TLV builder returns `tag + (length as 2-digit zero-padded
decimal) + value`. -/
theorem C4_buildTLV_ok (tag value : String)
    (h1 : 1 ≤ value.length) (h2 : value.length ≤ 99) :
    buildTLV tag value =
      .ok (tag ++ (if value.length < 10 then "0" ++ jsToString value.length
                   else jsToString value.length) ++ value) := by
  unfold buildTLV
  rw [formatLength_ok h1 h2]
  rfl

/-- Witness for C4: the concrete instance `TLVBuilder("01", "2543663452")`. -/
theorem C4_buildTLV_ok_witness :
    buildTLV "01" "2543663452" = .ok "01102543663452" := by
  have h := C4_buildTLV_ok "01" "2543663452" (by decide) (by decide)
  rw [h]
  rfl

end QRGen

namespace QRGen

/-- **C5**: the TLV builder fails with the LengthOutOfRange error exactly when
the value's character length is `< 1` or `> 99` (in particular on the empty
string and on any 101-character string), and any such error surfaces
unchanged through the merchant-info and additional-data builders and through
`generateQR()`, which then returns an error and no partial payload. -/
theorem C5_lengthOutOfRange_gate :
    (∀ tag value : String,
      (∃ e, buildTLV tag value = .error e) ↔ (value.length < 1 ∨ value.length > 99)) ∧
    (∀ tag value : String, value.length < 1 ∨ value.length > 99 →
      buildTLV tag value = .error (.lengthOutOfRange value.length)) ∧
    (∀ tag : String, buildTLV tag "" = .error (.lengthOutOfRange 0)) ∧
    (∀ tag s : String, s.length = 101 → buildTLV tag s = .error (.lengthOutOfRange 101)) ∧
    (∀ (c : QRGeneration) (e : JSError),
      getMerchantInfo c = .error e → getMerchantAccountInfo c = .error e) ∧
    (∀ (c : QRGeneration) (d bill : String) (e : JSError),
      c.initType = "DYNAMIC" → c.desc = some d →
      buildTLV BILL_NUMBER_ID c.billNumber = .ok bill →
      buildTLV PURPOSE_ID d = .error e → getAdditionalData c = .error e) ∧
    (∀ (c : QRGeneration) (e : JSError),
      getMerchantAccountInfo c = .error e → generateQR c = .error e) ∧
    (∀ (c : QRGeneration) (e : JSError) (mai : String),
      getMerchantAccountInfo c = .ok mai → getTransactionAmount c = .error e →
      generateQR c = .error e) ∧
    (∀ (c : QRGeneration) (e : JSError) (mai amt : String),
      getMerchantAccountInfo c = .ok mai → getTransactionAmount c = .ok amt →
      getAdditionalData c = .error e → generateQR c = .error e) := by
  refine ⟨?_, ?_, ?_, ?_, ?_, ?_, ?_, ?_, ?_⟩
  · intro tag value
    rw [buildTLV_eq]
    constructor
    · intro ⟨e, he⟩
      by_contra hc
      rw [if_neg hc] at he
      exact Except.noConfusion he
    · intro hc
      rw [if_pos hc]
      exact ⟨_, rfl⟩
  · intro tag value hc
    rw [buildTLV_eq, if_pos hc]
  · intro tag
    have := buildTLV_eq tag ""
    rw [if_pos (by simp)] at this
    simpa using this
  · intro tag s hs
    rw [buildTLV_eq, if_pos (by omega), hs]
  · intro c e h
    unfold getMerchantAccountInfo
    rw [h]
    rfl
  · intro c d bill e hdyn hdesc hbill hp
    unfold getAdditionalData
    rw [if_neg (by simp [hdyn])]
    simp only [hbill, hdesc, hp, Bind.bind, Except.bind]
  · intro c e h
    unfold generateQR
    rw [h]
    rfl
  · intro c e mai hm ha
    unfold generateQR
    rw [hm, ha]
    rfl
  · intro c e mai amt hm ha hd
    unfold generateQR
    rw [hm, ha, hd]
    rfl

/-- Witness for C5: the empty value is rejected, and an empty account number
makes the whole `generateQR()` call fail with the same error. -/
theorem C5_lengthOutOfRange_gate_witness :
    buildTLV "01" "" = .error (.lengthOutOfRange 0) ∧
    generateQR (mkQRGeneration "970407" "" none true none none 0) =
      .error (.lengthOutOfRange 0) :=
  ⟨C5_lengthOutOfRange_gate.2.2.1 "01",
   C5_lengthOutOfRange_gate.2.2.2.2.2.2.1
     (mkQRGeneration "970407" "" none true none none 0) (.lengthOutOfRange 0) rfl⟩

/-- **C6 counterexample**: the claim says an amount of zero yields no amount
TLV, but with the documented string interface a zero amount is the string
"0", which is JavaScript-truthy, so for a DYNAMIC configuration the amount
TLV `"54010"` IS emitted (`≠` the empty contribution the claim requires). -/
theorem C6_amount_zero_cex :
    getTransactionAmount
        (mkQRGeneration "970407" "2543663452" (some "DYNAMIC") true (some "0") (some "x") 3) =
      .ok "54010" ∧
    getTransactionAmount
        (mkQRGeneration "970407" "2543663452" (some "DYNAMIC") true (some "0") (some "x") 3) ≠
      .ok "" := by
  refine ⟨rfl, fun hcontra => ?_⟩
  rw [show getTransactionAmount
        (mkQRGeneration "970407" "2543663452" (some "DYNAMIC") true (some "0") (some "x") 3) =
      .ok "54010" from rfl] at hcontra
  exact absurd (Except.ok.inj hcontra) (by decide)

/-- **C6 (amended)**: the transaction amount TLV is emitted exactly when
`initType` is exactly `"DYNAMIC"` and `amount` is JavaScript-truthy (present
and non-empty — the string "0" included); it is omitted entirely (empty
contribution, not an empty TLV) otherwise. The additional data segment (a TLV
wrapping the bill-number sub-TLV and the purpose sub-TLV) is emitted only
when `initType` is exactly `"DYNAMIC"` and omitted entirely otherwise. -/
theorem C6_amount_and_additionalData_amended (c : QRGeneration) :
    ((c.initType ≠ "DYNAMIC" ∨ c.amount = none ∨ c.amount = some "") →
      getTransactionAmount c = .ok "") ∧
    (∀ a : String, c.initType = "DYNAMIC" → c.amount = some a → a ≠ "" →
      getTransactionAmount c = buildTLV AMOUNT_ID a) ∧
    (c.initType ≠ "DYNAMIC" → getAdditionalData c = .ok "") ∧
    (∀ d bill purposeTLV : String, c.initType = "DYNAMIC" → c.desc = some d →
      buildTLV BILL_NUMBER_ID c.billNumber = .ok bill →
      buildTLV PURPOSE_ID d = .ok purposeTLV →
      getAdditionalData c = buildTLV ADDITIONAL_DATA_ID (bill ++ purposeTLV)) := by
  refine ⟨?_, ?_, ?_, ?_⟩
  · intro h
    unfold getTransactionAmount
    cases hA : c.amount with
    | none => rfl
    | some a =>
      show (if c.initType = "DYNAMIC" ∧ a ≠ "" then buildTLV AMOUNT_ID a else Except.ok "") =
        Except.ok ""
      rw [if_neg]
      rintro ⟨hdyn, hne⟩
      rcases h with h | h | h
      · exact h hdyn
      · rw [hA] at h
        exact Option.noConfusion h
      · rw [hA] at h
        exact hne (Option.some.inj h)
  · intro a hdyn hA hne
    unfold getTransactionAmount
    rw [hA]
    show (if c.initType = "DYNAMIC" ∧ a ≠ "" then buildTLV AMOUNT_ID a else Except.ok "") =
      buildTLV AMOUNT_ID a
    rw [if_pos ⟨hdyn, hne⟩]
  · intro h
    unfold getAdditionalData
    rw [if_pos h]
  · intro d bill purposeTLV hdyn hdesc hbill hp
    unfold getAdditionalData
    rw [if_neg (by simp [hdyn])]
    simp only [hbill, hdesc, hp, Bind.bind, Except.bind]

/-- Witness for C6 (amended): a DYNAMIC configuration with amount "50000" and
description "Thanh toan" emits the amount TLV and the additional-data TLV. -/
theorem C6_amount_and_additionalData_amended_witness :
    getTransactionAmount
        (mkQRGeneration "970407" "2543663452" (some "DYNAMIC") true (some "50000") (some "Thanh toan") 1234) =
      buildTLV "54" "50000" ∧
    getAdditionalData
        (mkQRGeneration "970407" "2543663452" (some "DYNAMIC") true (some "50000") (some "Thanh toan") 1234) =
      buildTLV "62" ("0109NAPAS1234" ++ "0810Thanh toan") :=
  ⟨(C6_amount_and_additionalData_amended
      (mkQRGeneration "970407" "2543663452" (some "DYNAMIC") true (some "50000") (some "Thanh toan") 1234)).2.1
      "50000" rfl rfl (by decide),
   (C6_amount_and_additionalData_amended
      (mkQRGeneration "970407" "2543663452" (some "DYNAMIC") true (some "50000") (some "Thanh toan") 1234)).2.2.2
      "Thanh toan" "0109NAPAS1234" "0810Thanh toan" rfl rfl rfl rfl⟩

/-- **C7** (code bug): per the spec and the constructor's own JSDoc the
description may have 0–99 characters, but for a DYNAMIC configuration with
the empty description the purpose TLV's length check rejects length 0, so
`generateQR()` fails with the LengthOutOfRange error instead of succeeding. -/
theorem C7_empty_description_fails :
    generateQR (mkQRGeneration "970407" "2543663452" (some "DYNAMIC") true (some "50000") (some "") 5) =
      .error (.lengthOutOfRange 0) := rfl

end QRGen

namespace QRGen

theorem getTransactionAmount_not_dynamic {c : QRGeneration} (h : c.initType ≠ "DYNAMIC") :
    getTransactionAmount c = .ok "" := by
  unfold getTransactionAmount
  cases hA : c.amount with
  | none => rfl
  | some a =>
    show (if c.initType = "DYNAMIC" ∧ a ≠ "" then buildTLV AMOUNT_ID a else Except.ok "") =
      Except.ok ""
    rw [if_neg]
    rintro ⟨hdyn, -⟩
    exact h hdyn

theorem getAdditionalData_not_dynamic {c : QRGeneration} (h : c.initType ≠ "DYNAMIC") :
    getAdditionalData c = .ok "" := by
  unfold getAdditionalData
  rw [if_pos h]

/-- **C8**: `getComponents()` is consistent with `generateQR()`: the labeled
fields it returns are exactly the payload's segments, so concatenating them
in payload order and appending `"6304"` plus the CRC16 of that concatenation
reproduces `generateQR()`'s output; the fixed fields carry the payload
constants and `billNumber` carries the instance's bill number. -/
theorem C8_getComponents_consistent (c : QRGeneration) (comps : Components)
    (h : getComponents c = .ok comps) :
    generateQR c = .ok (comps.payloadFormat ++ comps.pointOfInitiation ++
      comps.merchantAccount ++ comps.currency ++ comps.amount ++ comps.country ++
      comps.additionalData ++ "6304" ++
      calculateCRC16 (comps.payloadFormat ++ comps.pointOfInitiation ++
        comps.merchantAccount ++ comps.currency ++ comps.amount ++ comps.country ++
        comps.additionalData ++ "6304")) ∧
    comps.payloadFormat = "000201" ∧ comps.pointOfInitiation = getPointOfInitiation c ∧
    comps.currency = "5303704" ∧ comps.country = "5802VN" ∧
    comps.billNumber = c.billNumber := by
  rcases getComponents_ok_iff.mp h with ⟨mai, amt, ad, hm, ha, hd, rfl⟩
  refine ⟨?_, rfl, rfl, rfl, rfl, rfl⟩
  rw [generateQR_ok_iff]
  exact ⟨mai, amt, ad, hm, ha, hd, rfl⟩

/-- Witness for C8: the components of the STATIC example reassemble into its
payload. -/
theorem C8_getComponents_consistent_witness :
    generateQR (mkQRGeneration "970407" "2543663452" none true none none 0) =
      .ok ("000201" ++ "010211" ++
        "38540010A00000072701240006970407011025436634520208QRIBFTTA" ++
        "5303704" ++ "" ++ "5802VN" ++ "" ++ "6304" ++
        calculateCRC16 ("000201" ++ "010211" ++
          "38540010A00000072701240006970407011025436634520208QRIBFTTA" ++
          "5303704" ++ "" ++ "5802VN" ++ "" ++ "6304")) ∧
    "000201" = "000201" ∧
    "010211" = getPointOfInitiation (mkQRGeneration "970407" "2543663452" none true none none 0) ∧
    "5303704" = "5303704" ∧ "5802VN" = "5802VN" ∧
    "NAPAS0000" = (mkQRGeneration "970407" "2543663452" none true none none 0).billNumber :=
  C8_getComponents_consistent (mkQRGeneration "970407" "2543663452" none true none none 0)
    { payloadFormat := "000201", pointOfInitiation := "010211",
      merchantAccount := "38540010A00000072701240006970407011025436634520208QRIBFTTA",
      currency := "5303704", amount := "", country := "5802VN",
      additionalData := "", billNumber := "NAPAS0000" } rfl

/-- **C9**: for every constructed configuration, whatever the random draw
(`randomInt(10000)` returns a value `< 10000`), the `billNumber` field is
`"NAPAS"` followed by exactly 4 decimal digits (zero-padded); it is computed
once at construction from the draw alone and stored in the immutable record. -/
theorem C9_billNumber_format (bankBin accNo : String) (it : Option String) (isAcc : Bool)
    (amount desc : Option String) (rand : Nat) (h : rand < 10000) :
    ∃ suffix : String,
      (mkQRGeneration bankBin accNo it isAcc amount desc rand).billNumber = "NAPAS" ++ suffix ∧
      suffix.length = 4 ∧ ∀ ch ∈ suffix.data, ch.isDigit := by
  refine ⟨padStart (jsToString rand) 4 '0', rfl, ?_, ?_⟩
  · rw [padStart_length]
    have h1 : (jsToString rand).length = (decDigits rand).length := rfl
    have h2 : (decDigits rand).length ≤ 4 :=
      decDigits_length_le 4 rand (by omega)
        (by rw [show (10 : Nat) ^ 4 = 10000 from by norm_num]; exact h)
    rw [h1, Nat.max_eq_left h2]
  · intro ch hch
    have hdata : (padStart (jsToString rand) 4 '0').data =
        List.replicate (4 - (jsToString rand).length) '0' ++ decDigits rand := rfl
    rw [hdata, List.mem_append] at hch
    rcases hch with hch | hch
    · rw [List.eq_of_mem_replicate hch]
      decide
    · exact decDigits_isDigit rand ch hch

/-- Witness for C9 at the concrete draw 42 (bill number `"NAPAS0042"`). -/
theorem C9_billNumber_format_witness :
    ∃ suffix : String,
      (mkQRGeneration "970407" "2543663452" none true none none 42).billNumber =
        "NAPAS" ++ suffix ∧
      suffix.length = 4 ∧ ∀ ch ∈ suffix.data, ch.isDigit :=
  C9_billNumber_format "970407" "2543663452" none true none none 42 (by decide)

/-- **C10**: for every configuration whose stored initiation type is neither
`"STATIC"` nor `"DYNAMIC"` (e.g. the upper-cased `"DYNAMICC"`),
`generateQR()` produces a hybrid payload: the point-of-initiation segment is
the DYNAMIC constant `"010212"` (STATIC is chosen only on exact equality),
while both the transaction amount TLV and the additional data TLV are
omitted because those builders test exact equality with `"DYNAMIC"`. -/
theorem C10_unrecognized_initType_hybrid (c : QRGeneration) (mai : String)
    (h1 : c.initType ≠ "STATIC") (h2 : c.initType ≠ "DYNAMIC")
    (hm : getMerchantAccountInfo c = .ok mai) :
    getPointOfInitiation c = "010212" ∧
    getTransactionAmount c = .ok "" ∧
    getAdditionalData c = .ok "" ∧
    generateQR c = .ok ("000201" ++ "010212" ++ mai ++ "5303704" ++ "" ++
      "5802VN" ++ "" ++ "6304" ++
      calculateCRC16 ("000201" ++ "010212" ++ mai ++ "5303704" ++ "" ++
        "5802VN" ++ "" ++ "6304")) := by
  have hpoi : getPointOfInitiation c = "010212" := by
    unfold getPointOfInitiation
    rw [if_neg h1]
    rfl
  have hamt := getTransactionAmount_not_dynamic h2
  have had := getAdditionalData_not_dynamic h2
  refine ⟨hpoi, hamt, had, ?_⟩
  rw [generateQR_ok_iff]
  refine ⟨mai, "", "", hm, hamt, had, ?_⟩
  simp [hpoi, PAYLOAD_FORMAT, CURRENCY, COUNTRY, CRC_ID]

/-- Witness for C10: the constructor input `"dynamicc"` is stored upper-cased
as `"DYNAMICC"`, which selects the dynamic point-of-initiation constant yet
omits both optional segments. -/
theorem C10_unrecognized_initType_hybrid_witness :
    getPointOfInitiation
        (mkQRGeneration "970407" "2543663452" (some "dynamicc") true (some "50000") (some "x") 7) =
      "010212" ∧
    getTransactionAmount
        (mkQRGeneration "970407" "2543663452" (some "dynamicc") true (some "50000") (some "x") 7) =
      .ok "" ∧
    getAdditionalData
        (mkQRGeneration "970407" "2543663452" (some "dynamicc") true (some "50000") (some "x") 7) =
      .ok "" ∧
    generateQR
        (mkQRGeneration "970407" "2543663452" (some "dynamicc") true (some "50000") (some "x") 7) =
      .ok ("000201" ++ "010212" ++
        "38540010A00000072701240006970407011025436634520208QRIBFTTA" ++
        "5303704" ++ "" ++ "5802VN" ++ "" ++ "6304" ++
        calculateCRC16 ("000201" ++ "010212" ++
          "38540010A00000072701240006970407011025436634520208QRIBFTTA" ++
          "5303704" ++ "" ++ "5802VN" ++ "" ++ "6304")) :=
  C10_unrecognized_initType_hybrid
    (mkQRGeneration "970407" "2543663452" (some "dynamicc") true (some "50000") (some "x") 7)
    "38540010A00000072701240006970407011025436634520208QRIBFTTA"
    (by decide) (by decide) rfl

end QRGen
